import Mathlib

/-!
Verification of the command-interpretation and world-interaction core of
Project Dark Star (a room-based interactive-fiction game written in Python).

Each namespace below is a shallow embedding of one Python module:
  * `Pl`  — `models/player.py` (loose inventory, equipment slots, carry mass)
  * `Pan` — `models/security_panel.py` (per-side door access panels)
  * `Cmd` — the verb-dispatch loop of `command_processor.py`
  * `Mv`  — `CommandProcessor._handle_move`
  * `GM`  — the inventory/cargo helpers of `game_manager.py`
  * `CP`  — the take/drop/store/retrieve handlers of `command_processor.py`
  * `SU`  — `StorageUnit` from `models/interactable.py`
  * `DH`  — `door_handler.py` (door action flow and PIN sub-state)
  * `Rep` — `repair_handler.py`

Masses are Python floats in the source; they are modelled as rationals.
-/

/-- Association-list lookup, the model of a Python `dict` read
(`d[k]` / `d.get(k)`): the value at the first matching key, if any. -/
def alookup (k : String) : List (String × α) → Option α
  | [] => none
  | kv :: rest => if kv.1 = k then some kv.2 else alookup k rest

/-- The first element of a list satisfying a decidable predicate, the model
of a Python `for`-loop that returns on its first match. -/
def pickFirst (q : α → Prop) [DecidablePred q] : List α → Option α
  | [] => none
  | x :: xs => if q x then some x else pickFirst q xs

/-- Python `str.lower()` (on the ASCII strings this game uses). -/
def pyLower (s : String) : String := ⟨s.data.map Char.toLower⟩

/-- Python `str.strip()`: drop whitespace from both ends. -/
def pyStrip (s : String) : String :=
  ⟨((s.data.dropWhile Char.isWhitespace).reverse.dropWhile
      Char.isWhitespace).reverse⟩

/-- Python `str.startswith(p)` on character lists (`listStarts p.data s.data`
tests whether `s` starts with `p`). -/
def listStarts : List Char → List Char → Bool
  | [], _ => true
  | _ :: _, [] => false
  | p :: ps, c :: cs => (p = c) && listStarts ps cs

/-- Python slicing `s[n:]` (character-based). -/
def pyDrop (s : String) (n : ℕ) : String := ⟨s.data.drop n⟩

/-- Python `len(s)` (character count). -/
def pyLen (s : String) : ℕ := s.data.length

namespace Pl

/-- A portable item as seen by `models/player.py`: display name, mass and the
optional equipment-slot tag (`equip_slot`, `None` when the item is not
wearable). -/
structure Item where
  name : String
  mass : ℚ
  equipSlot : Option String
deriving DecidableEq, Repr

/-- The keys of the `Player.equipped` dict: `body`, `torso`, `waist`, `feet`,
`head`. -/
def slotNames : List String := ["body", "torso", "waist", "feet", "head"]

/-- `Player`: loose inventory (`self._inventory`), equipment slots
(`self.equipped`, an association list mirroring the Python dict) and
`max_carry_mass`. -/
structure Player where
  inventory : List Item
  equipped : List (String × Option Item)
  maxCarryMass : ℚ
deriving DecidableEq, Repr

/-- `Player.current_carry_mass`: mass of loose (unequipped) items only. -/
def currentCarryMass (p : Player) : ℚ :=
  (p.inventory.map Item.mass).sum

/-- `Player.add_to_inventory`: append with mass check.  The
`isinstance(item, PortableItem)` guard is always satisfied in this model
because `Item` only represents portable items. -/
def addToInventory (p : Player) (item : Item) : Player × Bool × String :=
  if p.maxCarryMass < currentCarryMass p + item.mass then
    (p, false, "Too heavy! You can carry more.")
  else
    ({ p with inventory := p.inventory ++ [item] }, true,
     "You take the " ++ item.name ++ ".")

/-- `Player.remove_from_inventory`: remove the first occurrence if present
(`list.remove`). -/
def removeFromInventory (p : Player) (item : Item) : Player :=
  { p with inventory := p.inventory.erase item }

/-- Reading `self.equipped[slot]` (the slot is known to be a key). -/
def getSlot (p : Player) (slot : String) : Option Item :=
  (alookup slot p.equipped).getD none

/-- Writing `self.equipped[slot] = item`. -/
def setSlot (e : List (String × Option Item)) (slot : String) (item : Item) :
    List (String × Option Item) :=
  e.map (fun kv => if kv.1 = slot then (kv.1, some item) else kv)

/-- Python truthiness of the `(bool, str)` pair that
`Player.add_to_inventory` returns.  The source stores the whole pair in
`success` (`success = self.add_to_inventory(old)`) and tests `if not
success:`; a two-element tuple is always truthy in Python, so the test is
independent of the boolean inside the pair. -/
def tupleTruthy (_ : Bool × String) : Bool := true

/-- `Player.equip`: equip `item` in its slot, auto-unequipping any previous
occupant by handing it to `add_to_inventory` first. -/
def equip (p : Player) (item : Item) : Player × Bool × String :=
  match item.equipSlot with
  | none => (p, false, "Cannot equip " ++ item.name ++ " - invalid slot.")
  | some slot =>
    if slot ∈ slotNames then
      let bounce : Option Player :=
        match getSlot p slot with
        | some old =>
          let r := addToInventory p old
          -- `success = self.add_to_inventory(old)` followed by
          -- `if not success:` — dead branch, see `tupleTruthy`.
          if tupleTruthy r.2 = false then none else some r.1
        | none => some p
      match bounce with
      | none =>
        (p, false, "Cannot unequip - inventory too full/heavy.")
      | some p1 =>
        let p2 := removeFromInventory p1 item
        ({ p2 with equipped := setSlot p2.equipped slot item }, true,
         "You equip the " ++ item.name ++ ".")
    else (p, false, "Cannot equip " ++ item.name ++ " - invalid slot.")

/-- The previously equipped torso item in the C1 failing input. -/
def oldJacket : Item := { name := "jacket", mass := 2, equipSlot := some "torso" }

/-- The newly equipped torso item in the C1 failing input. -/
def newSuit : Item := { name := "suit", mass := 9, equipSlot := some "torso" }

/-- The C1 failing input: the suit (mass 9) is loose, the jacket (mass 2) is
equipped on the torso, and the carry limit is 10, so bouncing the jacket back
would reach mass 11 > 10. -/
def playerC1 : Player :=
  { inventory := [newSuit]
    equipped :=
      [("body", none), ("torso", some oldJacket), ("waist", none),
       ("feet", none), ("head", none)]
    maxCarryMass := 10 }

end Pl

namespace Pan

/-- `SecurityLevel` from `models/security_panel.py`. -/
inductive SecurityLevel where
  | noneRequired
  | lowSecKeycardOnly
  | highSecKeycardOnly
  | highSecKeycardPin
deriving DecidableEq, Repr

/-- `SecurityPanel`: identity, the door and side it belongs to, its security
level, the broken flag and repair progress. -/
structure SecurityPanel where
  panelId : String
  doorId : String
  side : String
  securityLevel : SecurityLevel
  isBroken : Bool
  repairProgress : ℚ
deriving DecidableEq, Repr

/-- Message returned by a broken panel. -/
def damagedMsg : String := "The panel on this side is damaged."

/-- `SecurityPanel.attempt_unlock`.  The Python function is annotated
`-> tuple[bool, str]` but falls off the end (returning `None`) when the
security level is `NONE`, and also when it is `HIGH_SEC_KEYCARD_PIN` with a
correct PIN; those paths are modelled as `none`. -/
def attemptUnlock (p : SecurityPanel) (inventory : List String)
    (pinInput : Option String) : Option (Bool × String) :=
  if p.isBroken then some (false, damagedMsg)
  else
    let requiredKeycard := p.securityLevel ∈
      [SecurityLevel.lowSecKeycardOnly, SecurityLevel.highSecKeycardOnly,
       SecurityLevel.highSecKeycardPin]
    if requiredKeycard ∧
        ¬ (["id_card_low_sec", "id_card_high_sec"].any
            (fun card => card ∈ inventory)) then
      some (false, "You need an ID card to swipe.")
    else
      let requiredPin := p.securityLevel ∈ [SecurityLevel.highSecKeycardPin]
      if requiredPin ∧ pinInput ≠ some "1234" then
        some (false, "Incorrect PIN.")
      else
        match p.securityLevel with
        | SecurityLevel.lowSecKeycardOnly =>
          some (true, "Access granted. The door unlocks.")
        | SecurityLevel.highSecKeycardOnly =>
          if "id_card_high_sec" ∈ inventory then
            some (true, "Access granted. The door unlocks.")
          else
            some (false, "Access denied. Incorrect security card")
        | _ => none

/-- `SecurityPanel.attempt_lock` — same credential check, no PIN clause, and
the same fall-through paths returning `None`. -/
def attemptLock (p : SecurityPanel) (inventory : List String) :
    Option (Bool × String) :=
  if p.isBroken then some (false, damagedMsg)
  else
    let requiredKeycard := p.securityLevel ∈
      [SecurityLevel.lowSecKeycardOnly, SecurityLevel.highSecKeycardOnly,
       SecurityLevel.highSecKeycardPin]
    if requiredKeycard ∧
        ¬ (["id_card_low_sec", "id_card_high_sec"].any
            (fun card => card ∈ inventory)) then
      some (false, "You need a valid ID card to swipe.")
    else
      match p.securityLevel with
      | SecurityLevel.lowSecKeycardOnly =>
        some (true, "Access granted. The door locks.")
      | SecurityLevel.highSecKeycardOnly =>
        if "id_card_high_sec" ∈ inventory then
          some (true, "Access granted. The door locks.")
        else
          some (false, "Access denied. Incorrect security card")
      | _ => none

/-- A non-broken panel of security level `NONE` (the C3 failing input). -/
def nonePanel : SecurityPanel :=
  { panelId := "p1", doorId := "d1", side := "quarters",
    securityLevel := SecurityLevel.noneRequired, isBroken := false,
    repairProgress := 0 }

/-- A non-broken high-security (keycard-only) panel. -/
def highPanel : SecurityPanel :=
  { panelId := "p2", doorId := "d2", side := "quarters",
    securityLevel := SecurityLevel.highSecKeycardOnly, isBroken := false,
    repairProgress := 0 }

end Pan

namespace Cmd

/-- The keys of the `CommandProcessor.commands` registry (`command_processor.py`
lines 15-39); the handlers themselves are identified by their verb key. -/
def verbKeys : List String :=
  ["quit", "exit", "go", "enter", "move", "inventory", "i", "take",
   "pick up", "store", "cargo", "debug cargo", "examine", "x", "drop",
   "retrieve", "lock", "unlock"]

/-- Python `" ".join(ws)`. -/
def joinWords : List String → String
  | [] => ""
  | [w] => w
  | w :: v :: vs => w ++ " " ++ joinWords (v :: vs)

/-- `CommandProcessor.process` lines 50-62: try the two-word verb
`f"{words[0]} {words[1]}"` first (when at least two words are present), fall
back to `words[0]`.  The two `else` arms of the source produce the same
verb/args pair, so they are written once. -/
def chooseVerb (words : List String) : String × String :=
  if 2 ≤ words.length ∧ joinWords (words.take 2) ∈ verbKeys then
    (joinWords (words.take 2), joinWords (words.drop 2))
  else
    (words.headD "", joinWords (words.drop 1))

/-- `CommandProcessor.process` lines 67-73: look the chosen verb up in the
registry; `some (verb, args)` is dispatch to that verb's handler, `none` is
the "I don't understand" fallback. -/
def processVerb (words : List String) : Option (String × String) :=
  let v := chooseVerb words
  if v.1 ∈ verbKeys then some v else none

/-- Number of space characters in a string. -/
def spaceCount (s : String) : Nat := s.data.count ' '

end Cmd

namespace Mv

/-- One entry of a room's `exits` dict: target room id, optional display
label, optional compass direction, shortcut aliases. -/
structure ExitData where
  target : String
  label : Option String
  direction : Option String
  shortcuts : List String
deriving DecidableEq, Repr

/-- One entry of a door's `panel_ids` list: which side (room id) and the
panel id mounted there. -/
structure SideP where
  side : String
  pid : String
deriving DecidableEq, Repr

/-- One connection record of `door_status.json` as used by
`CommandProcessor._handle_move`. -/
structure DoorRec where
  id : String
  rooms : List String
  locked : Bool
  lockedImage : Option String
  lockedDescription : String
  panelIds : List SideP
deriving DecidableEq, Repr

/-- The current-location dict: id, display name and exits. -/
structure RoomD where
  id : String
  name : String
  exits : List (String × ExitData)
deriving DecidableEq, Repr

/-- The state read and written by `_handle_move`: the game manager's current
location and door status, plus the ship view's displayed image and the
last-attempted panel/door record. -/
structure MoveState where
  currentRoom : RoomD
  rooms : List (String × RoomD)
  doorStatus : List DoorRec
  image : String
  lastPanelId : Option String
  lastDoorId : Option String
deriving DecidableEq, Repr

/-- The filler phrases stripped from a movement argument, longest first
(`prefixes = ["to the ", "to ", "the "]`). -/
def fillers : List String := ["to the ", "to ", "the "]

/-- Strip at most one leading filler phrase and re-trim (`_handle_move`
lines 85-90). -/
def stripFiller (s : String) : String :=
  match pickFirst (fun p => listStarts p.data s.data = true) fillers with
  | some p => pyStrip (pyDrop s (pyLen p))
  | none => s

/-- Python `set(door["rooms"]) == {current_room_id, next_id}`: equality of
the underlying sets, ignoring order and multiplicity. -/
def sameSet (a b : List String) : Prop :=
  (∀ x ∈ a, x ∈ b) ∧ (∀ x ∈ b, x ∈ a)

instance (a b : List String) : Decidable (sameSet a b) := by
  unfold sameSet
  infer_instance

/-- Exit resolution of `_handle_move` lines 97-115: first the exit's
canonical key, then the first exit whose compass direction or shortcut alias
matches.  Returns the target room id and the resolved display label
(`exit_data.get("label", current_location["name"])`). -/
def resolveExit (room : RoomD) (norm : String) : Option (String × String) :=
  match alookup norm room.exits with
  | some ed => some (ed.target, ed.label.getD room.name)
  | none =>
    match pickFirst (fun kv : String × ExitData =>
        kv.2.direction.map pyLower = some norm ∨
        norm ∈ kv.2.shortcuts.map pyLower) room.exits with
    | some kv => some (kv.2.target, kv.2.label.getD room.name)
    | none => none

/-- Fallback image for a locked door. -/
def defaultLockedImage : String := "resources/images/locked_door_default.png"

/-- `ship_view.change_location` →
`game_manager.set_current_location(next_id)` plus the "You enter …"
response (an unknown room id raises `ValueError` in the source; modelled as
an error response with no state change). -/
def moveTo (st : MoveState) (nextId : String) (exitLabel : String) :
    MoveState × String :=
  match alookup nextId st.rooms with
  | some r =>
    let displayName := if exitLabel = "" then r.name else exitLabel
    ({ st with currentRoom := r }, "You enter " ++ displayName ++ ".")
  | none => (st, "Invalid room ID: " ++ nextId)

/-- `CommandProcessor._handle_move`: normalize the argument, resolve the
exit, gate on the first matching door record, and either report the locked
door (recording image and last-attempted panel/door) or commit the move. -/
def handleMove (args : String) (st : MoveState) : MoveState × String :=
  let norm := stripFiller (pyLower (pyStrip args))
  if norm = "" then
    (st, "Where do you want to go? Try \x27go to [place]\x27.")
  else
    match resolveExit st.currentRoom norm with
    | none => (st, "You can\x27t go that way.")
    | some (nextId, exitLabel) =>
      -- `if not next_id:` — `None` or the empty string are falsy
      if nextId = "" then (st, "You can\x27t go that way.")
      else
        match pickFirst
            (fun d : DoorRec => sameSet d.rooms [st.currentRoom.id, nextId])
            st.doorStatus with
        | some d =>
          if d.locked then
            let img := d.lockedImage.getD defaultLockedImage
            match pickFirst (fun pd : SideP => pd.side = st.currentRoom.id)
                d.panelIds with
            | some pd =>
              ({ st with image := img, lastPanelId := some pd.pid,
                         lastDoorId := some d.id }, d.lockedDescription)
            | none => ({ st with image := img }, d.lockedDescription)
          else moveTo st nextId exitLabel
        | none => moveTo st nextId exitLabel

end Mv

namespace GM

/-- One entry of the `objects.json` registry (`GameManager.items`): display
name, mass, keyword aliases and whether `"type"` is `"portable"`. -/
structure ItemData where
  name : String
  mass : ℚ
  keywords : List String
  portable : Bool
deriving DecidableEq, Repr

/-- The inventory-related fields of `GameManager`: the item registry, the
player's inventory (a list of item ids), and the mass counters. -/
structure GMState where
  items : List (String × ItemData)
  inventory : List String
  carryMass : ℚ
  maxCarry : ℚ
deriving DecidableEq, Repr

/-- `GameManager.add_to_inventory`: registry lookup, portability check, mass
check, then append and update the mass counter.  (The Python message formats
the remaining capacity with one decimal; the numeric text is irrelevant to
the claims and rendered with `toString`.) -/
def gmAdd (gs : GMState) (itemId : String) : GMState × Bool × String :=
  match alookup itemId gs.items with
  | none => (gs, false, "You can\x27t take that.")
  | some d =>
    if d.portable = false then (gs, false, "You can\x27t take that.")
    else if gs.maxCarry < gs.carryMass + d.mass then
      (gs, false, "Too heavy! You can carry " ++
        toString (gs.maxCarry - gs.carryMass) ++ " kg more.")
    else
      ({ gs with inventory := gs.inventory ++ [itemId],
                 carryMass := gs.carryMass + d.mass },
       true, "You take the " ++ d.name ++ ".")

/-- `GameManager.remove_from_inventory`: if the id is present, subtract the
registry mass (when the registry knows the id) and remove the first
occurrence. -/
def gmRemove (gs : GMState) (itemId : String) : GMState × Bool :=
  if itemId ∈ gs.inventory then
    let m := match alookup itemId gs.items with
      | some d => d.mass
      | none => 0
    ({ gs with carryMass := gs.carryMass - m,
               inventory := gs.inventory.erase itemId }, true)
  else (gs, false)

end GM

namespace CP

/-- A live object instance in a room or cargo list.  `tag` models Python
object identity: each `PortableItem(...)` / `FixedObject(...)` constructor
call yields a fresh tag, so two instances created from the same registry
entry are distinguishable, exactly as two Python objects with equal fields
are distinct under `is`. -/
structure Inst where
  tag : ℕ
  itemId : String
  name : String
  keywords : List String
  mass : ℚ
  portable : Bool
deriving DecidableEq, Repr

/-- `Interactable.__init__`: `self.keywords = keywords or [name.lower()]`. -/
def keywordsOrName (d : GM.ItemData) : List String :=
  if d.keywords = [] then [pyLower d.name] else d.keywords

/-- Instantiating `PortableItem(**obj_kwargs)` / `FixedObject(**obj_kwargs)`
from a registry entry, with a fresh identity tag. -/
def mkInst (tag : ℕ) (itemId : String) (d : GM.ItemData) : Inst :=
  { tag := tag, itemId := itemId, name := d.name,
    keywords := keywordsOrName d, mass := d.mass, portable := d.portable }

/-- `Interactable.matches`: the (lowercased) input equals some keyword.  The
source sorts keywords longest-first before scanning, which cannot change
this boolean membership result. -/
def instMatches (target : String) (i : Inst) : Prop :=
  ∃ kw ∈ i.keywords, target = pyLower kw

instance (target : String) (i : Inst) : Decidable (instMatches target i) := by
  unfold instMatches
  infer_instance

/-- The state touched by the take/drop/store/retrieve handlers: the current
room (id, display name, object list), the game manager's inventory state,
the per-room cargo lists, and the allocation counter for fresh instances. -/
structure CPState where
  roomId : String
  roomName : String
  objects : List Inst
  gm : GM.GMState
  cargo : List (String × List Inst)
  nextTag : ℕ
deriving DecidableEq, Repr

/-- First of the randomized take-success messages (`random.choice` affects
only which flavor string is returned, never the outcome). -/
def takeMsg (n : String) : String := "You take the " ++ n ++ "."

/-- First of the randomized fixed-object failure messages. -/
def fixedMsg (n : String) : String :=
  "The " ++ n ++ " is bolted down. It\x27s not coming loose."

/-- `CommandProcessor._handle_take`: find the first matching room object; a
portable one goes through `GameManager.add_to_inventory` and is removed from
the room only on success; a fixed one fails with flavor text. -/
def handleTake (args : String) (st : CPState) : CPState × String :=
  if args = "" then (st, "Take what?")
  else
    let target := pyLower (pyStrip args)
    match pickFirst (instMatches target) st.objects with
    | none => (st, "There\x27s nothing like that here to take.")
    | some o =>
      if o.portable then
        let r := GM.gmAdd st.gm o.itemId
        if r.2.1 then
          ({ st with gm := r.1, objects := st.objects.erase o }, takeMsg o.name)
        else (st, r.2.2)
      else (st, fixedMsg o.name)

/-- The match test of `_handle_drop` on one inventory id: the registry entry
exists and the target equals its lowercased name or is among its keywords. -/
def dropMatchB (items : List (String × GM.ItemData)) (target itemId : String) :
    Bool :=
  match alookup itemId items with
  | some d => decide (target = pyLower d.name ∨ target ∈ d.keywords)
  | none => false

/-- First of the randomized drop messages. -/
def dropMsg (n : String) : String := "You drop the " ++ n ++ "."

/-- `CommandProcessor._handle_drop`: find the first matching inventory id,
remove it via `GameManager.remove_from_inventory`, and append a freshly
re-instantiated object (`PortableItem(**obj_kwargs)`) to the current room's
object list. -/
def handleDrop (args : String) (st : CPState) : CPState × String :=
  if args = "" then (st, "Drop what?")
  else
    let target := pyLower (pyStrip args)
    match pickFirst (fun iid => dropMatchB st.gm.items target iid = true)
        st.gm.inventory with
    | none => (st, "You don\x27t have a \x27" ++ args ++ "\x27 to drop.")
    | some iid =>
      match alookup iid st.gm.items with
      | some d =>
        let r := GM.gmRemove st.gm iid
        -- the removal cannot fail for an id found in the inventory scan
        if r.2 then
          ({ st with gm := r.1,
                     objects := st.objects ++ [mkInst st.nextTag iid d],
                     nextTag := st.nextTag + 1 }, dropMsg d.name)
        else (st, "You don\x27t have a \x27" ++ args ++ "\x27 to drop.")
      | none => (st, "You don\x27t have a \x27" ++ args ++ "\x27 to drop.")

/-- The rooms in which `store`/`retrieve` are allowed. -/
def storeRooms : List String := ["storage room", "cargo bay"]

/-- `GameManager.add_to_cargo`: append to the room's cargo list when the
item is portable and the room has one. -/
def addToCargo (cargo : List (String × List Inst)) (i : Inst)
    (roomId : String) : List (String × List Inst) × Bool :=
  if i.portable = true ∧ (alookup roomId cargo).isSome then
    (cargo.map (fun kv => if kv.1 = roomId then (kv.1, kv.2 ++ [i]) else kv),
     true)
  else (cargo, false)

/-- Remove the first instance with the given item id from a list. -/
def removeFirstById (l : List Inst) (itemId : String) : List Inst :=
  match l with
  | [] => []
  | x :: xs =>
    if x.itemId = itemId then xs else x :: removeFirstById xs itemId

/-- `GameManager.remove_from_cargo`: pop the first instance whose `id`
matches, reporting whether one was found. -/
def removeFromCargo (cargo : List (String × List Inst))
    (itemId roomId : String) : List (String × List Inst) × Bool :=
  match alookup roomId cargo with
  | some l =>
    if ∃ x ∈ l, x.itemId = itemId then
      (cargo.map (fun kv =>
         if kv.1 = roomId then (kv.1, removeFirstById kv.2 itemId) else kv),
       true)
    else (cargo, false)
  | none => (cargo, false)

/-- The match test of `_handle_store` on one inventory id: registered,
portable, and named/keyworded by the target. -/
def storeMatchB (items : List (String × GM.ItemData)) (target itemId : String) :
    Bool :=
  match alookup itemId items with
  | some d =>
    decide (d.portable = true ∧ (target = pyLower d.name ∨ target ∈ d.keywords))
  | none => false

/-- `CommandProcessor._handle_store`: only in the storage room or cargo bay;
the first matching portable inventory item is re-instantiated into the
room's cargo list and its id removed from the inventory (the source mutates
the raw id list, so the carry-mass counter is deliberately left unchanged
here, as in the code). -/
def handleStore (args : String) (st : CPState) : CPState × String :=
  if args = "" then (st, "Store what?")
  else
    let target := pyLower (pyStrip args)
    if st.roomId ∈ storeRooms then
      match pickFirst (fun iid => storeMatchB st.gm.items target iid = true)
          st.gm.inventory with
      | none =>
        (st, "You don\x27t have a \x27" ++ args ++ "\x27 in your inventory.")
      | some iid =>
        match alookup iid st.gm.items with
        | some d =>
          let i := mkInst st.nextTag iid d
          let rc := addToCargo st.cargo i st.roomId
          if rc.2 then
            ({ st with cargo := rc.1,
                       gm := { st.gm with
                                inventory := st.gm.inventory.erase iid },
                       nextTag := st.nextTag + 1 },
             "You store the " ++ d.name ++ " in the " ++
               pyLower st.roomName ++ ".")
          else (st, "Failed to store item (cargo full?).")
        | none =>
          (st, "You don\x27t have a \x27" ++ args ++ "\x27 in your inventory.")
    else (st, "You can only store items in the storage room or cargo bay.")

/-- `CommandProcessor._handle_retrieve`: only in the storage room or cargo
bay; the first matching portable cargo instance goes through
`GameManager.add_to_inventory` and is removed from cargo only on success. -/
def handleRetrieve (args : String) (st : CPState) : CPState × String :=
  if args = "" then (st, "Retrieve what?")
  else
    if st.roomId ∈ storeRooms then
      let target := pyLower (pyStrip args)
      let cargoItems := (alookup st.roomId st.cargo).getD []
      match pickFirst
          (fun i : Inst => instMatches target i ∧ i.portable = true)
          cargoItems with
      | none =>
        (st, "There\x27s nothing like \x27" ++ args ++ "\x27 in the " ++
          pyLower st.roomName ++ ".")
      | some o =>
        let r := GM.gmAdd st.gm o.itemId
        if r.2.1 then
          let rc := removeFromCargo st.cargo o.itemId st.roomId
          ({ st with gm := r.1, cargo := rc.1 },
           "You retrieve the " ++ o.name ++ " from the " ++
             pyLower st.roomName ++ ".")
        else (st, r.2.2)
    else (st, "You can only retrieve items in the storage room or cargo bay.")

end CP

namespace SU

/-- A portable item as held by a `StorageUnit`. -/
structure SUItem where
  id : String
  name : String
  mass : ℚ
deriving DecidableEq, Repr

/-- `StorageUnit` runtime state: contents, open flag, mass capacity and the
maintained total mass of the contents. -/
structure StorageUnit where
  contents : List SUItem
  isOpen : Bool
  capacityMass : ℚ
  currentMass : ℚ
deriving DecidableEq, Repr

/-- `StorageUnit.can_add_item`: the item fits by mass. -/
def canAddItem (u : StorageUnit) (item : SUItem) : Prop :=
  u.currentMass + item.mass ≤ u.capacityMass

instance (u : StorageUnit) (item : SUItem) : Decidable (canAddItem u item) := by
  unfold canAddItem
  infer_instance

/-- `StorageUnit.add_item`: append and update the mass counter only when the
item fits. -/
def addItem (u : StorageUnit) (item : SUItem) : StorageUnit × Bool :=
  if canAddItem u item then
    ({ u with contents := u.contents ++ [item],
              currentMass := u.currentMass + item.mass }, true)
  else (u, false)

end SU

namespace DH

/-- One exit of the object-based world model used by `door_handler.py`:
required display label, optional compass direction, shortcut aliases, and a
reference to the shared `Door` (by id) when the exit is secured.  An exit
with no door is an archway. -/
structure ExitD where
  target : String
  label : String
  direction : Option String
  shortcuts : List String
  door : Option String
deriving DecidableEq, Repr

/-- A `Room` instance as read by `DoorHandler`. -/
structure RoomO where
  id : String
  name : String
  exits : List ExitD
deriving DecidableEq, Repr

/-- A `Door` instance: shared locked state, security level, optional PIN,
image references and the per-side panels keyed by room id. -/
structure DoorO where
  id : String
  locked : Bool
  securityLevel : Pan.SecurityLevel
  pin : Option String
  images : List (String × String)
  panels : List (String × Pan.SecurityPanel)
deriving DecidableEq, Repr

/-- The data the scheduled `on_delay_complete` closure of
`handle_door_action` is bound to.  The closure's own body (credential check
after the swipe delay, possibly arming the PIN sub-state) runs later; what
`handle_door_action` itself does is schedule it after `swipeDelay`. -/
structure PendingSwipe where
  action : String
  doorId : String
  exitLabel : String
deriving DecidableEq, Repr

/-- The state read and written by `DoorHandler.handle_door_action`: current
room, room display names, doors, the player inventory (ids), the displayed
image and response text, and the scheduler slot. -/
structure DHState where
  room : RoomO
  roomNames : List (String × String)
  doors : List (String × DoorO)
  inventory : List String
  image : String
  responseText : String
  scheduled : Option (ℚ × PendingSwipe)
deriving DecidableEq, Repr

/-- The door-swipe delay: `self.ship_view.schedule_delayed_action(5.0, ...)`
in `handle_door_action`. -/
def swipeDelay : ℚ := 5

/-- `DoorHandler._matches_exit`: label, non-empty direction, or shortcut
alias (all lowercased). -/
def matchesExit (target : String) (ed : ExitD) : Prop :=
  target = pyLower ed.label ∨
  (∃ d ∈ ed.direction.toList, d ≠ "" ∧ target = pyLower d) ∨
  target ∈ ed.shortcuts.map pyLower

instance (target : String) (ed : ExitD) : Decidable (matchesExit target ed) := by
  unfold matchesExit
  infer_instance

/-- Fallback image path. -/
def missingImage : String := "resources/images/image_missing.png"

/-- `DoorHandler._find_door_and_panel`: auto-select the single secured exit
on empty input, otherwise match the input against exits; archways produce
action-specific flavor errors; a secured exit yields its door, the panel id
on this side, and the exit label. -/
def findDoorAndPanel (argsRaw : String) (st : DHState) (action : String) :
    Except String (DoorO × String × String) :=
  let args := pyLower (pyStrip argsRaw)
  if args = "" then
    match st.room.exits.filter (fun ed => ed.door.isSome) with
    | [ed] =>
      match ed.door with
      | some did =>
        match alookup did st.doors with
        | some door =>
          match alookup st.room.id door.panels with
          | some p => Except.ok (door, p.panelId, ed.label)
          | none => Except.error "Which door?"
        | none => Except.error "Which door?"
      | none => Except.error "Which door?"
    | _ => Except.error "Which door?"
  else
    match pickFirst (matchesExit args) st.room.exits with
    | none => Except.error "There is no such exit."
    | some ed =>
      match ed.door with
      | none =>
        let targetName := (alookup ed.target st.roomNames).getD ed.target
        if action = "unlock" then
          Except.error ("There is an open archway between " ++ st.room.name ++
            " and " ++ targetName ++ ", there is nothing to unlock.")
        else
          Except.error ("There is an open archway between " ++ st.room.name ++
            " and " ++ targetName ++ ", it has no lock.")
      | some did =>
        match alookup did st.doors with
        | some door =>
          match alookup st.room.id door.panels with
          | some p => Except.ok (door, p.panelId, ed.label)
          | none => Except.error "No access panel on this side."
        | none => Except.error "No access panel on this side."

/-- The repair hint returned for a broken panel. -/
def dmgPanelHint : String :=
  "The door access panel on this side is damaged and currently unusable. Repairing it may be possible"

/-- The in-progress swipe message. -/
def swipeMsg : String := "Swiping door access panel, checking card ID..."

/-- `DoorHandler.handle_door_action`: resolve the door, short-circuit on an
already-satisfied state, abort on a broken panel (after switching to the
damaged-panel image, with no delay scheduled), reject when no keycard is
held, and otherwise show the panel image and schedule the swipe
continuation after `swipeDelay`. -/
def handleDoorAction (action : String) (args : String) (st : DHState) :
    DHState × String :=
  match findDoorAndPanel args st action with
  | Except.error e => (st, e)
  | Except.ok (door, _panelId, exitLabel) =>
    if (action = "unlock" ∧ door.locked = false) ∨
        (action = "lock" ∧ door.locked = true) then
      (st, "That door is already " ++ action ++ "ed.")
    else
      match alookup st.room.id door.panels with
      | none => (st, "No access panel on this side.")
      | some panel =>
        if panel.isBroken then
          ({ st with
              image := (alookup "panel_damaged" door.images).getD missingImage },
           dmgPanelHint)
        else
          if ¬ ("id_card_low_sec" ∈ st.inventory ∨
                "id_card_high_sec" ∈ st.inventory) then
            (st, "You need an ID card to swipe the door access panel.")
          else
            ({ st with
                image := (alookup "panel" door.images).getD missingImage,
                responseText := swipeMsg,
                scheduled := some (swipeDelay,
                  { action := action, doorId := door.id,
                    exitLabel := exitLabel }) },
             swipeMsg)

/-- The `pin_attempts` / `pin_max_attempts` pair stored on the ship view
while a PIN challenge is pending; the presence of the whole record models
the armed `pending_pin_callback`. -/
structure PinSession where
  attempts : ℕ
  maxAttempts : ℕ
deriving DecidableEq, Repr

/-- The state read and written by `DoorHandler._handle_pin_input`: the
door's locked flag, the last-attempted panel, that panel's PIN, the game
manager's inventory state, the pending session, and the presentation
fields. -/
structure PinWorld where
  doorLocked : Bool
  panel : Pan.SecurityPanel
  panelPin : Option String
  gm : GM.GMState
  session : Option PinSession
  response : String
  image : String
  images : List (String × String)
deriving DecidableEq, Repr

/-- Modelled from the spec: `SecurityPanel.attempt_pin` is called by
`DoorHandler._handle_pin_input` but is absent from the checked-in
`models/security_panel.py` (which predates the PIN flow).  Spec §4.3: "each
subsequent line of player input … is compared against the panel's PIN"; a
mismatch is rejected with an incorrect-PIN message. -/
def attemptPin (panelPin : Option String) (pin : String)
    (_inventory : List String) : Bool × String :=
  if some pin = panelPin then (true, "PIN accepted.")
  else (false, "Incorrect PIN.")

/-- `DoorHandler._finish_unlock_with_pin` / `_finish_lock_with_pin`: apply
the door state change and show the matching image and message. -/
def finishWithPin (action : String) (exitLabel : String) (w : PinWorld) :
    PinWorld :=
  if action = "unlock" then
    { w with doorLocked := false,
             image := (alookup "open" w.images).getD missingImage,
             response := "PIN accepted. Door unlocked. Access to " ++
               exitLabel ++ " is now open." }
  else
    { w with doorLocked := true,
             image := (alookup "locked" w.images).getD missingImage,
             response := "PIN accepted. Door locked. Access to " ++
               exitLabel ++ " is now closed." }

/-- `DoorHandler._cleanup_pin_state`: delete `pin_attempts`,
`pin_max_attempts` and `pending_pin_callback`. -/
def cleanupPinState (w : PinWorld) : PinWorld := { w with session := none }

/-- The lockout message. -/
def lockoutMsg : String :=
  "Access denied after 3 incorrect PIN attempts. Process terminated."

/-- `DoorHandler._handle_pin_input`: one typed line during a pending PIN
challenge.  Counts the attempt, checks the PIN, and on the final failure
shows the unchanged state image, emits the lockout message, swaps a held
high-security card for its damaged variant, and clears the pending
session. -/
def handlePinInput (pin : String) (action : String) (exitLabel : String)
    (w : PinWorld) : PinWorld :=
  match w.session with
  | none => w
  | some s =>
    let s1 : PinSession := { s with attempts := s.attempts + 1 }
    let w1 := { w with session := some s1 }
    let r := attemptPin w1.panelPin pin w1.gm.inventory
    if r.1 then
      cleanupPinState (finishWithPin action exitLabel w1)
    else
      let attemptsLeft := s1.maxAttempts - s1.attempts
      if 0 < attemptsLeft then
        { w1 with response := r.2 ++ " Attempts left: " ++
            toString attemptsLeft ++ "/" ++ toString s1.maxAttempts }
      else
        let stateImageKey := if w1.doorLocked = false then "open" else "locked"
        let w2 := { w1 with
          image := (alookup stateImageKey w1.images).getD missingImage,
          response := lockoutMsg }
        let w3 :=
          if "id_card_high_sec" ∈ w2.gm.inventory then
            let g1 := (GM.gmRemove w2.gm "id_card_high_sec").1
            let r2 := GM.gmAdd g1 "id_card_high_sec_damaged"
            if r2.2.1 then
              { w2 with gm := r2.1,
                        response := w2.response ++ "\nID card invalidated." }
            else { w2 with gm := r2.1 }
          else w2
        cleanupPinState w3

end DH

namespace Rep

/-- What the deferred repair-completion closure does when it fires: swap the
image and set the confirmation message (it also refreshes the description
display; it touches no panel state). -/
structure VisualUpdate where
  image : String
  responseText : String
deriving DecidableEq, Repr

/-- The outcome of `RepairHandler._perform_repair`: the synchronously
updated panel, the immediately shown image and message, and the deferred
visual confirmation scheduled after `delay`. -/
structure RepairResult where
  panel : Pan.SecurityPanel
  image : String
  responseText : String
  delay : ℚ
  deferred : VisualUpdate
deriving DecidableEq, Repr

/-- The repair presentation delay:
`self.ship_view.schedule_delayed_action(8.0, on_repair_complete)`. -/
def repairDelay : ℚ := 8

/-- `RepairHandler._perform_repair`: show the damaged-panel image and the
starting message, apply the repair to the panel instantly (`is_broken =
False`, `repair_progress = 1.0`), and schedule only the visual confirmation
behind `repairDelay`. -/
def performRepair (panel : Pan.SecurityPanel)
    (doorData : List (String × String)) (exitLabel : String) : RepairResult :=
  { panel := { panel with isBroken := false, repairProgress := 1 },
    image := (alookup "panel_image_damaged" doorData).getD
      "resources/images/panel_damaged_default.png",
    responseText := "Repairing door access panel...",
    delay := repairDelay,
    deferred :=
      { image := (alookup "panel_image" doorData).getD
          "resources/images/panel_default.png",
        responseText := "You repair the door access panel to " ++ exitLabel ++
          ". It is now operational." } }

end Rep

namespace CE

/-- Registry entry for the spanner used in the C9 inputs. -/
def spannerData : GM.ItemData :=
  { name := "spanner", mass := 1, keywords := ["spanner"], portable := true }

/-- The original spanner instance sitting in the room before `take`. -/
def spanner0 : CP.Inst :=
  { tag := 0, itemId := "spanner", name := "spanner",
    keywords := ["spanner"], mass := 1, portable := true }

/-- The C9 input state: a room containing one spanner instance (tag 0), an
empty inventory, and the allocation counter at 1. -/
def stC9 : CP.CPState :=
  { roomId := "quarters", roomName := "Quarters",
    objects := [spanner0],
    gm := { items := [("spanner", spannerData)], inventory := [],
            carryMass := 0, maxCarry := 10 },
    cargo := [], nextTag := 1 }

/-- Registry entry of the high-security card in the C4 witness. -/
def highCard : GM.ItemData :=
  { name := "high sec card", mass := 1, keywords := ["card"], portable := true }

/-- Registry entry of the permanently damaged card variant. -/
def damagedCard : GM.ItemData :=
  { name := "damaged card", mass := 1, keywords := ["card"], portable := true }

/-- The C4 witness input: a locked high-security+PIN door whose panel PIN is
`4321`, one armed PIN challenge (0 of 3 attempts used), and a player holding
the high-security card. -/
def pinWorld : DH.PinWorld :=
  { doorLocked := true,
    panel :=
      { panelId := "p1", doorId := "d1", side := "sub corridor",
        securityLevel := Pan.SecurityLevel.highSecKeycardPin,
        isBroken := false, repairProgress := 0 },
    panelPin := some "4321",
    gm := { items := [("id_card_high_sec", highCard),
                      ("id_card_high_sec_damaged", damagedCard)],
            inventory := ["id_card_high_sec"], carryMass := 1, maxCarry := 10 },
    session := some { attempts := 0, maxAttempts := 3 },
    response := "", image := "bg.png",
    images := [("open", "o.png"), ("locked", "l.png")] }

end CE

/-- C1: the claim states that when bouncing the previously equipped item back
into loose inventory would exceed `max_carry_mass`, the whole `Player.equip`
operation fails with the slot and inventory unchanged.  The code binds the
`(bool, str)` pair itself to `success` and tests `if not success:`, which a
tuple never satisfies, so the equip proceeds anyway: at the C1 failing input
the call reports success, the old torso item is silently dropped from the
world (it is neither in the slot nor in the inventory), and the new item
takes the slot. -/
theorem c1_equip_overflow_succeeds_and_loses_old_item :
    (Pl.equip Pl.playerC1 Pl.newSuit).2.1 = true ∧
    (Pl.equip Pl.playerC1 Pl.newSuit).1.inventory = [] ∧
    Pl.getSlot (Pl.equip Pl.playerC1 Pl.newSuit).1 "torso" = some Pl.newSuit ∧
    Pl.oldJacket ∉ (Pl.equip Pl.playerC1 Pl.newSuit).1.inventory := by
  simp [Pl.equip, Pl.playerC1, Pl.newSuit, Pl.oldJacket, Pl.slotNames,
    Pl.getSlot, Pl.setSlot, Pl.addToInventory, Pl.currentCarryMass,
    Pl.removeFromInventory, Pl.tupleTruthy, alookup, List.erase_cons]
  norm_num [List.erase_cons]
  simp [alookup]

/-- C3: the claim states that `attempt_unlock` on a non-broken panel with
security level "none required" succeeds with a success result and message.
In the code that path falls off the end of the function and produces no
result at all (Python `None`, contradicting the declared `tuple[bool, str]`
return type); the high-security keycard half of the claim does hold: the
high-tier card succeeds and the low-tier card alone fails with the distinct
wrong-card message. -/
theorem c3_attempt_unlock_none_level_returns_no_result :
    Pan.attemptUnlock Pan.nonePanel [] none = none ∧
    Pan.attemptUnlock Pan.nonePanel ["id_card_low_sec"] none = none ∧
    Pan.attemptUnlock Pan.highPanel ["id_card_high_sec"] none =
      some (true, "Access granted. The door unlocks.") ∧
    Pan.attemptUnlock Pan.highPanel ["id_card_low_sec"] none =
      some (false, "Access denied. Incorrect security card") := by
  refine ⟨?_, ?_, ?_, ?_⟩ <;> decide

/-- Every key of the verb registry contains at most one space (all verbs are
one or two words). -/
theorem verbKeys_space_le_one : ∀ s ∈ Cmd.verbKeys, Cmd.spaceCount s ≤ 1 := by
  decide

/-- Joining `n` space-free words with single spaces yields exactly `n - 1`
spaces. -/
theorem spaceCount_joinWords (ws : List String) (hws : ws ≠ [])
    (hfree : ∀ w ∈ ws, ' ' ∉ w.data) :
    Cmd.spaceCount (Cmd.joinWords ws) = ws.length - 1 := by
  induction ws with
  | nil => exact absurd rfl hws
  | cons w vs ih =>
    cases vs with
    | nil => simp [Cmd.joinWords, Cmd.spaceCount,
        List.count_eq_zero.mpr (hfree w (List.mem_cons_self w []))]
    | cons v us =>
      have hrec := ih (by simp) (fun x hx => hfree x (List.mem_cons_of_mem w hx))
      have hw : ' ' ∉ w.data := hfree w (List.mem_cons_self w (v :: us))
      have hwc : w.data.count ' ' = 0 := List.count_eq_zero.mpr hw
      have hsp : (" ".data.count ' ') = 1 := by decide
      show (w ++ " " ++ Cmd.joinWords (v :: us)).data.count ' ' =
        (w :: v :: us).length - 1
      rw [String.data_append, List.count_append, String.data_append,
        List.count_append, hwc, hsp]
      unfold Cmd.spaceCount at hrec
      rw [hrec]
      have h1 : (w :: v :: us).length = (v :: us).length + 1 := rfl
      have h2 : 1 ≤ (v :: us).length := by simp
      omega

/-- A prefix of `j ≥ 3` space-free words can never equal a verb key. -/
theorem no_long_key (ws : List String) (hfree : ∀ w ∈ ws, ' ' ∉ w.data)
    (j : ℕ) (h3 : 3 ≤ j) (hlen : j ≤ ws.length) :
    Cmd.joinWords (ws.take j) ∉ Cmd.verbKeys := by
  intro hmem
  have hlen2 : (ws.take j).length = j := by
    rw [List.length_take]
    exact min_eq_left hlen
  have hne : ws.take j ≠ [] := by
    intro h
    rw [h] at hlen2
    simp at hlen2
    omega
  have hcount := spaceCount_joinWords (ws.take j) hne
    (fun w hw => hfree w (List.take_subset _ _ hw))
  have hle := verbKeys_space_le_one _ hmem
  rw [hcount, hlen2] at hle
  omega

/-- C2: longest-prefix verb matching.  If some prefix of the
whitespace-separated words of the input is a verb key, then
`CommandProcessor.process` dispatches to the longest such matching prefix,
with the remaining words joined as the argument string; shorter matching
verbs never win over a longer matching phrase. -/
theorem c2_longest_prefix_verb_dispatch (ws : List String)
    (hw : ∀ w ∈ ws, w ≠ "" ∧ ' ' ∉ w.data)
    (k : ℕ) (hk1 : 1 ≤ k) (hk2 : k ≤ ws.length)
    (hk3 : Cmd.joinWords (ws.take k) ∈ Cmd.verbKeys) :
    ∃ K, 1 ≤ K ∧ K ≤ ws.length ∧
      Cmd.joinWords (ws.take K) ∈ Cmd.verbKeys ∧
      (∀ j, K < j → j ≤ ws.length → Cmd.joinWords (ws.take j) ∉ Cmd.verbKeys) ∧
      Cmd.processVerb ws =
        some (Cmd.joinWords (ws.take K), Cmd.joinWords (ws.drop K)) := by
  have hfree : ∀ w ∈ ws, ' ' ∉ w.data := fun w h => (hw w h).2
  have hk2' : k ≤ 2 := by
    by_contra h
    exact no_long_key ws hfree k (by omega) hk2 hk3
  by_cases htwo : 2 ≤ ws.length ∧ Cmd.joinWords (ws.take 2) ∈ Cmd.verbKeys
  · refine ⟨2, by omega, htwo.1, htwo.2, ?_, ?_⟩
    · intro j hj hjlen
      exact no_long_key ws hfree j (by omega) hjlen
    · unfold Cmd.processVerb Cmd.chooseVerb
      rw [if_pos htwo]
      simp [htwo.2]
  · have hk1' : k = 1 := by
      rcases Nat.lt_or_ge k 2 with h | h
      · omega
      · exfalso
        have : k = 2 := by omega
        subst this
        exact htwo ⟨hk2, hk3⟩
    subst hk1'
    obtain ⟨a, t, rfl⟩ : ∃ a t, ws = a :: t := by
      cases ws with
      | nil => simp at hk2
      | cons a t => exact ⟨a, t, rfl⟩
    have hhead : Cmd.joinWords ((a :: t).take 1) = a := rfl
    refine ⟨1, le_refl 1, hk2, hk3, ?_, ?_⟩
    · intro j hj hjlen
      rcases Nat.lt_or_ge j 3 with h | h
      · have : j = 2 := by omega
        subst this
        intro hmem
        exact htwo ⟨hjlen, hmem⟩
      · exact no_long_key (a :: t) hfree j h hjlen
    · unfold Cmd.processVerb Cmd.chooseVerb
      rw [if_neg htwo]
      rw [hhead] at hk3
      simp [hk3, hhead]
      rfl

/-- Witness for C2 at the input `pick up spanner`: both a shorter candidate
(`pick`, not a verb) and the two-word verb `pick up` are considered, and the
two-word verb wins with argument `spanner`. -/
theorem c2_longest_prefix_verb_dispatch_witness :
    Cmd.processVerb ["pick", "up", "spanner"] = some ("pick up", "spanner") := by
  obtain ⟨K, hK1, hK2, hmem, hmax, hdisp⟩ :=
    c2_longest_prefix_verb_dispatch ["pick", "up", "spanner"] (by decide)
      2 (by decide) (by decide) (by decide)
  have hK3 : K ≤ 3 := by simpa using hK2
  interval_cases K
  · exact absurd hmem (by decide)
  · simpa using hdisp
  · exact absurd hmem (by decide)

/-- C8: `RepairHandler._perform_repair` applies the panel state change
synchronously — the returned panel has its broken flag cleared and repair
progress set to 1.0 — while only a visual confirmation (image swap and
message) is deferred behind the fixed presentation delay of 8 time units,
which is strictly longer than the 5-unit door-swipe delay. -/
theorem c8_repair_synchronous_state_deferred_visuals
    (panel : Pan.SecurityPanel) (doorData : List (String × String))
    (exitLabel : String) :
    (Rep.performRepair panel doorData exitLabel).panel.isBroken = false ∧
    (Rep.performRepair panel doorData exitLabel).panel.repairProgress = 1 ∧
    (Rep.performRepair panel doorData exitLabel).delay = Rep.repairDelay ∧
    DH.swipeDelay < Rep.repairDelay := by
  refine ⟨rfl, rfl, rfl, ?_⟩
  norm_num [DH.swipeDelay, Rep.repairDelay]

/-- C6: an add that would push a mass total over its limit is rejected with
no partial mutation.  `GameManager.add_to_inventory` returns failure and
leaves the whole inventory state (list and mass counter) unchanged, the
`take` handler then leaves the room, inventory and cargo exactly as they
were (the item stays in the room), and `StorageUnit.add_item` returns
failure leaving the unit unchanged. -/
theorem c6_overflow_add_rejected_without_mutation
    (st : CP.CPState) (args : String) (o : CP.Inst) (d : GM.ItemData)
    (u : SU.StorageUnit) (item : SU.SUItem)
    (hargs : args ≠ "")
    (hfind : pickFirst (CP.instMatches (pyLower (pyStrip args))) st.objects =
      some o)
    (hoport : o.portable = true)
    (hreg : alookup o.itemId st.gm.items = some d)
    (hport : d.portable = true)
    (hover : st.gm.maxCarry < st.gm.carryMass + d.mass)
    (hover2 : u.capacityMass < u.currentMass + item.mass) :
    (GM.gmAdd st.gm o.itemId).1 = st.gm ∧
    (GM.gmAdd st.gm o.itemId).2.1 = false ∧
    (CP.handleTake args st).1 = st ∧
    SU.addItem u item = (u, false) := by
  have hadd1 : (GM.gmAdd st.gm o.itemId).1 = st.gm := by
    unfold GM.gmAdd
    rw [hreg]
    simp [hport, hover]
  have hadd2 : (GM.gmAdd st.gm o.itemId).2.1 = false := by
    unfold GM.gmAdd
    rw [hreg]
    simp [hport, hover]
  refine ⟨hadd1, hadd2, ?_, ?_⟩
  · unfold CP.handleTake
    rw [if_neg hargs]
    simp only [hfind, hoport, if_true]
    simp [hadd2]
  · unfold SU.addItem
    rw [if_neg (by exact not_le.mpr hover2)]

/-- Witness for C6: a 6 kg crate cannot join a 5 kg load under a 10 kg
carry limit, and a 2 kg part cannot enter a storage unit holding 4 kg of
its 5 kg capacity; nothing changes in either case. -/
theorem c6_overflow_add_rejected_without_mutation_witness :
    (GM.gmAdd
        { items := [("crate", { name := "crate", mass := 6, keywords := ["crate"], portable := true })],
          inventory := ["kit"], carryMass := 5, maxCarry := 10 } "crate").2.1 = false ∧
    (CP.handleTake "crate"
        { roomId := "cargo bay", roomName := "Cargo Bay",
          objects := [{ tag := 0, itemId := "crate", name := "crate",
                        keywords := ["crate"], mass := 6, portable := true }],
          gm := { items := [("crate", { name := "crate", mass := 6, keywords := ["crate"], portable := true })],
                  inventory := ["kit"], carryMass := 5, maxCarry := 10 },
          cargo := [], nextTag := 1 }).1 =
      { roomId := "cargo bay", roomName := "Cargo Bay",
        objects := [{ tag := 0, itemId := "crate", name := "crate",
                      keywords := ["crate"], mass := 6, portable := true }],
        gm := { items := [("crate", { name := "crate", mass := 6, keywords := ["crate"], portable := true })],
                inventory := ["kit"], carryMass := 5, maxCarry := 10 },
        cargo := [], nextTag := 1 } ∧
    SU.addItem { contents := [{ id := "box", name := "box", mass := 4 }],
                 isOpen := true, capacityMass := 5, currentMass := 4 }
        { id := "part", name := "part", mass := 2 } =
      ({ contents := [{ id := "box", name := "box", mass := 4 }],
         isOpen := true, capacityMass := 5, currentMass := 4 }, false) := by
  obtain ⟨h1, h2, h3, h4⟩ :=
    c6_overflow_add_rejected_without_mutation
      { roomId := "cargo bay", roomName := "Cargo Bay",
        objects := [{ tag := 0, itemId := "crate", name := "crate",
                      keywords := ["crate"], mass := 6, portable := true }],
        gm := { items := [("crate", { name := "crate", mass := 6, keywords := ["crate"], portable := true })],
                inventory := ["kit"], carryMass := 5, maxCarry := 10 },
        cargo := [], nextTag := 1 }
      "crate"
      { tag := 0, itemId := "crate", name := "crate", keywords := ["crate"],
        mass := 6, portable := true }
      { name := "crate", mass := 6, keywords := ["crate"], portable := true }
      { contents := [{ id := "box", name := "box", mass := 4 }],
        isOpen := true, capacityMass := 5, currentMass := 4 }
      { id := "part", name := "part", mass := 2 }
      (by decide)
      (by simp [pickFirst, CP.instMatches, pyLower, pyStrip])
      rfl (by simp [alookup]) rfl (by norm_num) (by norm_num)
  exact ⟨h2, h3, h4⟩

/-- C10: `store` and `retrieve` issued with a target while the current room
is neither the storage room nor the cargo bay fail with the message naming
those two rooms and leave the whole state — inventory, cargo lists,
everything — unchanged. -/
theorem c10_store_retrieve_room_restriction
    (st : CP.CPState) (args : String)
    (hargs : args ≠ "")
    (hroom : st.roomId ∉ CP.storeRooms) :
    CP.handleStore args st =
      (st, "You can only store items in the storage room or cargo bay.") ∧
    CP.handleRetrieve args st =
      (st, "You can only retrieve items in the storage room or cargo bay.") := by
  constructor
  · unfold CP.handleStore
    rw [if_neg hargs]
    simp only [if_neg hroom]
  · unfold CP.handleRetrieve
    rw [if_neg hargs]
    simp only [if_neg hroom]

/-- Witness for C10: storing or retrieving a spanner from the galley is
rejected with the room-naming message and no state change. -/
theorem c10_store_retrieve_room_restriction_witness :
    CP.handleStore "spanner"
        { roomId := "galley", roomName := "Galley", objects := [],
          gm := { items := [], inventory := ["spanner"], carryMass := 1,
                  maxCarry := 10 },
          cargo := [("storage room", []), ("cargo bay", [])], nextTag := 0 } =
      ({ roomId := "galley", roomName := "Galley", objects := [],
         gm := { items := [], inventory := ["spanner"], carryMass := 1,
                 maxCarry := 10 },
         cargo := [("storage room", []), ("cargo bay", [])], nextTag := 0 },
       "You can only store items in the storage room or cargo bay.") ∧
    CP.handleRetrieve "spanner"
        { roomId := "galley", roomName := "Galley", objects := [],
          gm := { items := [], inventory := ["spanner"], carryMass := 1,
                  maxCarry := 10 },
          cargo := [("storage room", []), ("cargo bay", [])], nextTag := 0 } =
      ({ roomId := "galley", roomName := "Galley", objects := [],
         gm := { items := [], inventory := ["spanner"], carryMass := 1,
                 maxCarry := 10 },
         cargo := [("storage room", []), ("cargo bay", [])], nextTag := 0 },
       "You can only retrieve items in the storage room or cargo bay.") :=
  c10_store_retrieve_room_restriction
    { roomId := "galley", roomName := "Galley", objects := [],
      gm := { items := [], inventory := ["spanner"], carryMass := 1,
              maxCarry := 10 },
      cargo := [("storage room", []), ("cargo bay", [])], nextTag := 0 }
    "spanner" (by decide) (by decide)

/-- C5: when a movement argument resolves to an exit secured by a locked
door, `_handle_move` leaves the current location (and the room and door
data) unchanged and returns the door's locked-description text; the only
state it may touch is the displayed image and the last-attempted panel/door
record. -/
theorem c5_locked_door_blocks_movement
    (args : String) (st : Mv.MoveState) (nextId exitLabel : String)
    (d : Mv.DoorRec)
    (h0 : Mv.stripFiller (pyLower (pyStrip args)) ≠ "")
    (h1 : Mv.resolveExit st.currentRoom
      (Mv.stripFiller (pyLower (pyStrip args))) = some (nextId, exitLabel))
    (h2 : nextId ≠ "")
    (h3 : pickFirst
      (fun dr : Mv.DoorRec => Mv.sameSet dr.rooms [st.currentRoom.id, nextId])
      st.doorStatus = some d)
    (h4 : d.locked = true) :
    (Mv.handleMove args st).1.currentRoom = st.currentRoom ∧
    (Mv.handleMove args st).2 = d.lockedDescription ∧
    (Mv.handleMove args st).1.rooms = st.rooms ∧
    (Mv.handleMove args st).1.doorStatus = st.doorStatus := by
  unfold Mv.handleMove
  simp only [h1, h3, h4, if_neg h0, if_neg h2, if_true]
  cases hp : pickFirst (fun pd : Mv.SideP => pd.side = st.currentRoom.id)
      d.panelIds with
  | none => simp [hp]
  | some pd => simp [hp]

/-- Witness for C5: `go cargo bay` against a locked door from the sub
corridor leaves the player in the sub corridor and returns the locked
description. -/
theorem c5_locked_door_blocks_movement_witness :
    (Mv.handleMove "cargo bay"
        { currentRoom :=
            { id := "sub corridor", name := "Sub Corridor",
              exits := [("cargo bay",
                { target := "cargo bay", label := some "Cargo Bay",
                  direction := none, shortcuts := ["cargo"] })] },
          rooms := [],
          doorStatus :=
            [{ id := "door1", rooms := ["sub corridor", "cargo bay"],
               locked := true, lockedImage := none,
               lockedDescription := "The hatch is sealed.",
               panelIds := [{ side := "sub corridor", pid := "panel1" }] }],
          image := "bg.png", lastPanelId := none,
          lastDoorId := none }).1.currentRoom =
      { id := "sub corridor", name := "Sub Corridor",
        exits := [("cargo bay",
          { target := "cargo bay", label := some "Cargo Bay",
            direction := none, shortcuts := ["cargo"] })] } ∧
    (Mv.handleMove "cargo bay"
        { currentRoom :=
            { id := "sub corridor", name := "Sub Corridor",
              exits := [("cargo bay",
                { target := "cargo bay", label := some "Cargo Bay",
                  direction := none, shortcuts := ["cargo"] })] },
          rooms := [],
          doorStatus :=
            [{ id := "door1", rooms := ["sub corridor", "cargo bay"],
               locked := true, lockedImage := none,
               lockedDescription := "The hatch is sealed.",
               panelIds := [{ side := "sub corridor", pid := "panel1" }] }],
          image := "bg.png", lastPanelId := none,
          lastDoorId := none }).2 = "The hatch is sealed." := by
  obtain ⟨ha, hb, _, _⟩ :=
    c5_locked_door_blocks_movement "cargo bay"
      { currentRoom :=
          { id := "sub corridor", name := "Sub Corridor",
            exits := [("cargo bay",
              { target := "cargo bay", label := some "Cargo Bay",
                direction := none, shortcuts := ["cargo"] })] },
        rooms := [],
        doorStatus :=
          [{ id := "door1", rooms := ["sub corridor", "cargo bay"],
             locked := true, lockedImage := none,
             lockedDescription := "The hatch is sealed.",
             panelIds := [{ side := "sub corridor", pid := "panel1" }] }],
        image := "bg.png", lastPanelId := none, lastDoorId := none }
      "cargo bay" "Cargo Bay"
      { id := "door1", rooms := ["sub corridor", "cargo bay"],
        locked := true, lockedImage := none,
        lockedDescription := "The hatch is sealed.",
        panelIds := [{ side := "sub corridor", pid := "panel1" }] }
      (by decide) (by decide) (by decide) (by decide) (by decide)
  exact ⟨ha, hb⟩

/-- C7: a broken panel rejects every unlock and lock attempt regardless of
credentials (`attempt_unlock` and `attempt_lock` return failure for every
inventory and PIN), and `DoorHandler.handle_door_action`, on a genuine
attempt (the door is not already in the requested state) through a broken
panel, returns the repair hint without scheduling any swipe delay and
without touching the doors (so the locked state is unchanged). -/
theorem c7_broken_panel_rejects_all_attempts
    (p : Pan.SecurityPanel) (inv : List String) (pin : Option String)
    (st : DH.DHState) (action args : String) (door : DH.DoorO)
    (panelId exitLabel : String) (panel : Pan.SecurityPanel)
    (hb : p.isBroken = true)
    (hfind : DH.findDoorAndPanel args st action =
      Except.ok (door, panelId, exitLabel))
    (hstate : ¬ ((action = "unlock" ∧ door.locked = false) ∨
      (action = "lock" ∧ door.locked = true)))
    (hpanel : alookup st.room.id door.panels = some panel)
    (hbroken : panel.isBroken = true)
    (hsched : st.scheduled = none) :
    Pan.attemptUnlock p inv pin = some (false, Pan.damagedMsg) ∧
    Pan.attemptLock p inv = some (false, Pan.damagedMsg) ∧
    (DH.handleDoorAction action args st).2 = DH.dmgPanelHint ∧
    (DH.handleDoorAction action args st).1.scheduled = none ∧
    (DH.handleDoorAction action args st).1.doors = st.doors := by
  have hres : DH.handleDoorAction action args st =
      ({ st with image :=
          (alookup "panel_damaged" door.images).getD DH.missingImage },
       DH.dmgPanelHint) := by
    unfold DH.handleDoorAction
    simp [hfind, hpanel, hbroken, if_neg hstate]
  refine ⟨?_, ?_, ?_, ?_, ?_⟩
  · simp [Pan.attemptUnlock, hb]
  · simp [Pan.attemptLock, hb]
  · rw [hres]
  · rw [hres]
    exact hsched
  · rw [hres]

/-- Witness for C7: a broken sub-corridor panel turns away a player holding
both keycards who tries to unlock the locked cargo-bay door: the repair hint
comes back, nothing is scheduled, and the door data is untouched. -/
theorem c7_broken_panel_rejects_all_attempts_witness :
    Pan.attemptUnlock
        { panelId := "p1", doorId := "d1", side := "sub corridor",
          securityLevel := Pan.SecurityLevel.highSecKeycardOnly,
          isBroken := true, repairProgress := 0 }
        ["id_card_low_sec", "id_card_high_sec"] none =
      some (false, Pan.damagedMsg) ∧
    (DH.handleDoorAction "unlock" "cargo bay"
        { room :=
            { id := "sub corridor", name := "Sub Corridor",
              exits := [{ target := "cargo bay", label := "cargo bay",
                          direction := none, shortcuts := ["cargo"],
                          door := some "d1" }] },
          roomNames := [("cargo bay", "Cargo Bay")],
          doors := [("d1",
            { id := "d1", locked := true,
              securityLevel := Pan.SecurityLevel.highSecKeycardOnly,
              pin := none, images := [],
              panels := [("sub corridor",
                { panelId := "p1", doorId := "d1", side := "sub corridor",
                  securityLevel := Pan.SecurityLevel.highSecKeycardOnly,
                  isBroken := true, repairProgress := 0 })] })],
          inventory := ["id_card_low_sec", "id_card_high_sec"],
          image := "bg.png", responseText := "", scheduled := none }).2 =
      DH.dmgPanelHint ∧
    (DH.handleDoorAction "unlock" "cargo bay"
        { room :=
            { id := "sub corridor", name := "Sub Corridor",
              exits := [{ target := "cargo bay", label := "cargo bay",
                          direction := none, shortcuts := ["cargo"],
                          door := some "d1" }] },
          roomNames := [("cargo bay", "Cargo Bay")],
          doors := [("d1",
            { id := "d1", locked := true,
              securityLevel := Pan.SecurityLevel.highSecKeycardOnly,
              pin := none, images := [],
              panels := [("sub corridor",
                { panelId := "p1", doorId := "d1", side := "sub corridor",
                  securityLevel := Pan.SecurityLevel.highSecKeycardOnly,
                  isBroken := true, repairProgress := 0 })] })],
          inventory := ["id_card_low_sec", "id_card_high_sec"],
          image := "bg.png", responseText := "", scheduled := none }).1.scheduled =
      none := by
  obtain ⟨h1, _, h3, h4, _⟩ :=
    c7_broken_panel_rejects_all_attempts
      { panelId := "p1", doorId := "d1", side := "sub corridor",
        securityLevel := Pan.SecurityLevel.highSecKeycardOnly,
        isBroken := true, repairProgress := 0 }
      ["id_card_low_sec", "id_card_high_sec"] none
      { room :=
          { id := "sub corridor", name := "Sub Corridor",
            exits := [{ target := "cargo bay", label := "cargo bay",
                        direction := none, shortcuts := ["cargo"],
                        door := some "d1" }] },
        roomNames := [("cargo bay", "Cargo Bay")],
        doors := [("d1",
          { id := "d1", locked := true,
            securityLevel := Pan.SecurityLevel.highSecKeycardOnly,
            pin := none, images := [],
            panels := [("sub corridor",
              { panelId := "p1", doorId := "d1", side := "sub corridor",
                securityLevel := Pan.SecurityLevel.highSecKeycardOnly,
                isBroken := true, repairProgress := 0 })] })],
        inventory := ["id_card_low_sec", "id_card_high_sec"],
        image := "bg.png", responseText := "", scheduled := none }
      "unlock" "cargo bay"
      { id := "d1", locked := true,
        securityLevel := Pan.SecurityLevel.highSecKeycardOnly,
        pin := none, images := [],
        panels := [("sub corridor",
          { panelId := "p1", doorId := "d1", side := "sub corridor",
            securityLevel := Pan.SecurityLevel.highSecKeycardOnly,
            isBroken := true, repairProgress := 0 })] }
      "p1" "cargo bay"
      { panelId := "p1", doorId := "d1", side := "sub corridor",
        securityLevel := Pan.SecurityLevel.highSecKeycardOnly,
        isBroken := true, repairProgress := 0 }
      (by decide) (by rfl) (by decide) (by decide) (by decide) (by decide)
  exact ⟨h1, h3, h4⟩

/-- If nothing in the front part matches, `pickFirst` scans the back part. -/
theorem pickFirst_append_of_none (q : α → Prop) [DecidablePred q]
    (l1 l2 : List α) (h : ∀ x ∈ l1, ¬ q x) :
    pickFirst q (l1 ++ l2) = pickFirst q l2 := by
  induction l1 with
  | nil => rfl
  | cons x xs ih =>
    simp only [List.cons_append, pickFirst]
    rw [if_neg (h x (List.mem_cons_self x xs))]
    exact ih fun y hy => h y (List.mem_cons_of_mem x hy)

/-- C9 counterexample: the claim requires `take X` then `drop X` to restore
the item "with identical identity — the same instance/identifier as before
the take".  At the concrete C9 input both operations succeed and the same
item id comes back, but `_handle_drop` re-instantiates the object from the
registry (`PortableItem(**obj_kwargs)`), so the room regains a fresh
instance: the resulting object list differs from the original one. -/
theorem c9_take_drop_returns_fresh_instance :
    (CP.handleTake "spanner" CE.stC9).1.gm.inventory = ["spanner"] ∧
    (CP.handleDrop "spanner"
      (CP.handleTake "spanner" CE.stC9).1).1.gm.inventory = [] ∧
    (CP.handleDrop "spanner"
        (CP.handleTake "spanner" CE.stC9).1).1.objects.map CP.Inst.itemId =
      CE.stC9.objects.map CP.Inst.itemId ∧
    (CP.handleDrop "spanner"
      (CP.handleTake "spanner" CE.stC9).1).1.objects ≠ CE.stC9.objects := by
  have hW : pyLower (pyStrip "spanner") = "spanner" := by decide
  have hL : pyLower "spanner" = "spanner" := by decide
  have ht : CP.handleTake "spanner" CE.stC9 =
      ({ roomId := "quarters", roomName := "Quarters",
         objects := [],
         gm := { items := [("spanner", CE.spannerData)],
                 inventory := ["spanner"], carryMass := 0 + 1,
                 maxCarry := 10 },
         cargo := [], nextTag := 1 }, CP.takeMsg "spanner") := by
    unfold CP.handleTake CE.stC9 GM.gmAdd
    simp [hW, hL, pickFirst, CP.instMatches, alookup, CE.spanner0,
      CE.spannerData, List.erase_cons]
  rw [ht]
  have hd : CP.dropMatchB
      [("spanner",
        { name := "spanner", mass := 1, keywords := ["spanner"],
          portable := true })] "spanner" "spanner" = true := by
    unfold CP.dropMatchB
    simp [alookup, hL]
  unfold CP.handleDrop GM.gmRemove
  simp [hW, hd, pickFirst, alookup, CE.spannerData, CP.mkInst,
    CP.keywordsOrName, CE.stC9, CE.spanner0, CP.dropMsg, hL,
    List.erase_cons, CP.Inst.mk.injEq]

/-- C9 (amended): for every portable item in the current room, a successful
`take X` followed by `drop X` (with no other inventory item answering to the
same name) removes the item from the player's inventory again, restores the
inventory mass to its pre-take value, and returns an item with the same
identifier and registry data to the room's object list — as a newly
constructed instance appended at the end, not the original instance. -/
theorem c9_take_drop_restores_identifier
    (st : CP.CPState) (args : String) (o : CP.Inst) (d : GM.ItemData)
    (hargs : args ≠ "")
    (hfind : pickFirst (CP.instMatches (pyLower (pyStrip args))) st.objects =
      some o)
    (hoport : o.portable = true)
    (hreg : alookup o.itemId st.gm.items = some d)
    (hport : d.portable = true)
    (hfits : st.gm.carryMass + d.mass ≤ st.gm.maxCarry)
    (hmatch : CP.dropMatchB st.gm.items (pyLower (pyStrip args)) o.itemId =
      true)
    (hnone : ∀ iid ∈ st.gm.inventory,
      CP.dropMatchB st.gm.items (pyLower (pyStrip args)) iid = false) :
    (CP.handleDrop args (CP.handleTake args st).1).1.gm.inventory =
      st.gm.inventory ∧
    (CP.handleDrop args (CP.handleTake args st).1).1.gm.carryMass =
      st.gm.carryMass ∧
    (CP.handleDrop args (CP.handleTake args st).1).1.objects =
      st.objects.erase o ++ [CP.mkInst st.nextTag o.itemId d] ∧
    (CP.mkInst st.nextTag o.itemId d).itemId = o.itemId := by
  have hnotmem : o.itemId ∉ st.gm.inventory := fun hmem =>
    absurd hmatch (by simp [hnone o.itemId hmem])
  have hadd : GM.gmAdd st.gm o.itemId =
      ({ st.gm with inventory := st.gm.inventory ++ [o.itemId],
                    carryMass := st.gm.carryMass + d.mass },
       true, "You take the " ++ d.name ++ ".") := by
    unfold GM.gmAdd
    rw [hreg]
    simp [hport, not_lt.mpr hfits]
  have ht : (CP.handleTake args st).1 =
      { st with gm := { st.gm with
                         inventory := st.gm.inventory ++ [o.itemId],
                         carryMass := st.gm.carryMass + d.mass },
                objects := st.objects.erase o } := by
    unfold CP.handleTake
    rw [if_neg hargs]
    simp only [hfind, hoport, if_true, hadd]
  rw [ht]
  have hscan : pickFirst
      (fun iid =>
        CP.dropMatchB st.gm.items (pyLower (pyStrip args)) iid = true)
      (st.gm.inventory ++ [o.itemId]) = some o.itemId := by
    rw [pickFirst_append_of_none _ _ _ (fun x hx => by simp [hnone x hx])]
    simp [pickFirst, hmatch]
  have hrem : GM.gmRemove
      { st.gm with inventory := st.gm.inventory ++ [o.itemId],
                   carryMass := st.gm.carryMass + d.mass } o.itemId =
      ({ st.gm with inventory := st.gm.inventory,
                    carryMass := st.gm.carryMass + d.mass - d.mass },
       true) := by
    unfold GM.gmRemove
    rw [if_pos (by simp)]
    simp [hreg, List.erase_append_right _ hnotmem, List.erase_cons]
  unfold CP.handleDrop
  rw [if_neg hargs]
  simp only [hscan, hreg, hrem]
  simp [add_sub_cancel_right]
  rfl

/-- Witness for C9 (amended): taking and dropping the spanner empties the
inventory again and puts a fresh spanner instance (tag 1, same item id)
back into the room. -/
theorem c9_take_drop_restores_identifier_witness :
    (CP.handleDrop "spanner"
      (CP.handleTake "spanner" CE.stC9).1).1.gm.inventory = [] ∧
    (CP.handleDrop "spanner"
        (CP.handleTake "spanner" CE.stC9).1).1.objects =
      [CP.mkInst 1 "spanner" CE.spannerData] := by
  have hW : pyLower (pyStrip "spanner") = "spanner" := by decide
  have hL : pyLower "spanner" = "spanner" := by decide
  obtain ⟨h1, h2, h3, h4⟩ :=
    c9_take_drop_restores_identifier CE.stC9 "spanner" CE.spanner0
      CE.spannerData (by decide)
      (by simp [pickFirst, CP.instMatches, CE.spanner0, CE.stC9, hW, hL])
      rfl
      (by simp [alookup, CE.stC9, CE.spanner0])
      rfl
      (by norm_num [CE.stC9, CE.spannerData])
      (by simp [CP.dropMatchB, alookup, CE.stC9, CE.spanner0,
        CE.spannerData, hW, hL])
      (by simp [CE.stC9])
  refine ⟨by simpa [CE.stC9] using h1, ?_⟩
  rw [h3]
  simp [CE.stC9, CE.spanner0, List.erase_cons]

/-- A wrong PIN with attempts remaining only counts the attempt and
re-prompts: every field of the world other than the session counter and the
response text is unchanged. -/
theorem pin_retry_fields (pin action label : String) (w : DH.PinWorld)
    (a m : ℕ) (hs : w.session = some { attempts := a, maxAttempts := m })
    (hwrong : some pin ≠ w.panelPin) (hleft : a + 1 < m) :
    (DH.handlePinInput pin action label w).session =
      some { attempts := a + 1, maxAttempts := m } ∧
    (DH.handlePinInput pin action label w).panelPin = w.panelPin ∧
    (DH.handlePinInput pin action label w).gm = w.gm ∧
    (DH.handlePinInput pin action label w).doorLocked = w.doorLocked ∧
    (DH.handlePinInput pin action label w).panel = w.panel := by
  have hpos : 0 < m - (a + 1) := by omega
  unfold DH.handlePinInput DH.attemptPin
  rw [hs]
  simp [hwrong, hpos]

/-- The third wrong PIN: the lockout branch leaves door and panel untouched,
emits the lockout message with the card-invalidated follow-up, swaps the
high-security card for the damaged variant, and clears the session. -/
theorem pin_lockout_fields (pin action label : String) (w : DH.PinWorld)
    (a m : ℕ) (hd dd : GM.ItemData)
    (hs : w.session = some { attempts := a, maxAttempts := m })
    (hwrong : some pin ≠ w.panelPin) (hlast : m ≤ a + 1)
    (hcard : "id_card_high_sec" ∈ w.gm.inventory)
    (hhigh : alookup "id_card_high_sec" w.gm.items = some hd)
    (hdmg : alookup "id_card_high_sec_damaged" w.gm.items = some dd)
    (hdport : dd.portable = true)
    (hmass : w.gm.carryMass - hd.mass + dd.mass ≤ w.gm.maxCarry) :
    (DH.handlePinInput pin action label w).session = none ∧
    (DH.handlePinInput pin action label w).doorLocked = w.doorLocked ∧
    (DH.handlePinInput pin action label w).panel = w.panel ∧
    (DH.handlePinInput pin action label w).response =
      DH.lockoutMsg ++ "\nID card invalidated." ∧
    (DH.handlePinInput pin action label w).gm.inventory =
      w.gm.inventory.erase "id_card_high_sec" ++
        ["id_card_high_sec_damaged"] := by
  have hz : m - (a + 1) = 0 := by omega
  have hnl : ¬ (w.gm.maxCarry < w.gm.carryMass - hd.mass + dd.mass) :=
    not_lt.mpr hmass
  unfold DH.handlePinInput DH.attemptPin DH.cleanupPinState
  rw [hs]
  simp only [hwrong, hz]
  unfold GM.gmRemove GM.gmAdd
  simp [hcard, hhigh, hdmg, hdport, hnl]

/-- C4: a PIN challenge against a high-security+PIN door in which all three
allowed attempts are wrong ends with the door's locked flag unchanged, the
panel untouched, the lockout message (plus the card-invalidated follow-up)
emitted, the high-security card in the inventory replaced by its permanently
damaged variant, and the pending-PIN session state (attempt counter, max
attempts, continuation) cleared. -/
theorem c4_three_wrong_pins_lockout
    (w0 : DH.PinWorld) (p1 p2 p3 action label : String)
    (hd dd : GM.ItemData)
    (hs : w0.session = some { attempts := 0, maxAttempts := 3 })
    (h1 : some p1 ≠ w0.panelPin) (h2 : some p2 ≠ w0.panelPin)
    (h3 : some p3 ≠ w0.panelPin)
    (hcard : "id_card_high_sec" ∈ w0.gm.inventory)
    (hhigh : alookup "id_card_high_sec" w0.gm.items = some hd)
    (hdmg : alookup "id_card_high_sec_damaged" w0.gm.items = some dd)
    (hdport : dd.portable = true)
    (hmass : w0.gm.carryMass - hd.mass + dd.mass ≤ w0.gm.maxCarry) :
    (DH.handlePinInput p3 action label (DH.handlePinInput p2 action label
        (DH.handlePinInput p1 action label w0))).doorLocked = w0.doorLocked ∧
    (DH.handlePinInput p3 action label (DH.handlePinInput p2 action label
        (DH.handlePinInput p1 action label w0))).panel = w0.panel ∧
    (DH.handlePinInput p3 action label (DH.handlePinInput p2 action label
        (DH.handlePinInput p1 action label w0))).response =
      DH.lockoutMsg ++ "\nID card invalidated." ∧
    (DH.handlePinInput p3 action label (DH.handlePinInput p2 action label
        (DH.handlePinInput p1 action label w0))).gm.inventory =
      w0.gm.inventory.erase "id_card_high_sec" ++
        ["id_card_high_sec_damaged"] ∧
    (DH.handlePinInput p3 action label (DH.handlePinInput p2 action label
        (DH.handlePinInput p1 action label w0))).session = none := by
  obtain ⟨r1s, r1p, r1g, r1d, r1n⟩ :=
    pin_retry_fields p1 action label w0 0 3 hs h1 (by omega)
  obtain ⟨r2s, r2p, r2g, r2d, r2n⟩ :=
    pin_retry_fields p2 action label (DH.handlePinInput p1 action label w0)
      1 3 r1s (by rw [r1p]; exact h2) (by omega)
  obtain ⟨r3s, r3d, r3n, r3r, r3i⟩ :=
    pin_lockout_fields p3 action label
      (DH.handlePinInput p2 action label
        (DH.handlePinInput p1 action label w0))
      2 3 hd dd r2s (by rw [r2p, r1p]; exact h3) (by omega)
      (by rw [r2g, r1g]; exact hcard)
      (by rw [r2g, r1g]; exact hhigh)
      (by rw [r2g, r1g]; exact hdmg)
      hdport
      (by rw [r2g, r1g]; exact hmass)
  refine ⟨?_, ?_, r3r, ?_, r3s⟩
  · rw [r3d, r2d, r1d]
  · rw [r3n, r2n, r1n]
  · rw [r3i, r2g, r1g]

/-- Witness for C4: three wrong PINs (`0000`) against the armed challenge
leave the door locked, clear the session, and swap the high-security card
for the damaged one. -/
theorem c4_three_wrong_pins_lockout_witness :
    (DH.handlePinInput "0000" "unlock" "cargo bay"
        (DH.handlePinInput "0000" "unlock" "cargo bay"
          (DH.handlePinInput "0000" "unlock" "cargo bay"
            CE.pinWorld))).doorLocked = true ∧
    (DH.handlePinInput "0000" "unlock" "cargo bay"
        (DH.handlePinInput "0000" "unlock" "cargo bay"
          (DH.handlePinInput "0000" "unlock" "cargo bay"
            CE.pinWorld))).gm.inventory = ["id_card_high_sec_damaged"] ∧
    (DH.handlePinInput "0000" "unlock" "cargo bay"
        (DH.handlePinInput "0000" "unlock" "cargo bay"
          (DH.handlePinInput "0000" "unlock" "cargo bay"
            CE.pinWorld))).session = none := by
  obtain ⟨hdoor, hpanel, hresp, hinv, hsess⟩ :=
    c4_three_wrong_pins_lockout CE.pinWorld "0000" "0000" "0000"
      "unlock" "cargo bay" CE.highCard CE.damagedCard
      rfl (by decide) (by decide) (by decide) (by decide)
      (by simp [alookup, CE.pinWorld])
      (by simp [alookup, CE.pinWorld])
      rfl
      (by norm_num [CE.pinWorld, CE.highCard, CE.damagedCard])
  refine ⟨?_, ?_, hsess⟩
  · rw [hdoor]
    rfl
  · rw [hinv]
    rfl
